import Mathlib

/-!
Shallow embedding of `pkg/koordlet/util/system/cgroup_driver.go`.

Go strings are modelled as `List Char`.  The only Go standard-library string
operations the file uses are `strings.Split(s, "://")`,
`strings.ReplaceAll(s, "-", "_")`, `strings.HasPrefix`, `strings.HasSuffix`,
byte slicing `s[i:j]`, and `fmt.Sprintf`/`fmt.Errorf` with `%s` templates;
each is given a faithful executable model below.  All prefixes and suffixes
sliced in the source are ASCII, so Go byte indices and character indices
coincide on every reachable slice.

Effectful parts (the global `CgroupPathFormatter` variable, the kubelet
polling loop) are embedded by explicit state passing: the global slot is an
argument-and-result, and the outcome of each poll iteration is an input list.
-/

namespace CgroupDriver

/-- Go strings modelled as lists of characters. -/
abbrev Str := List Char

/-- The character list of a string literal, used to transcribe Go string literals. -/
def chars (s : String) : Str := s.data

/-- Decidable equality for `Except`, so concrete parser results can be compared. -/
instance {ε α : Type} [DecidableEq ε] [DecidableEq α] : DecidableEq (Except ε α) := fun x y =>
  match x, y with
  | .ok a, .ok b =>
    if h : a = b then isTrue (h ▸ rfl) else isFalse (fun hc => h (Except.ok.inj hc))
  | .error a, .error b =>
    if h : a = b then isTrue (h ▸ rfl) else isFalse (fun hc => h (Except.error.inj hc))
  | .ok _, .error _ => isFalse Except.noConfusion
  | .error _, .ok _ => isFalse Except.noConfusion

/-- Go `strings.Split(s, "://")`: cuts `s` at every occurrence of the separator
`"://"`, scanning left to right, separators not overlapping.  Because `"://"`
cannot overlap itself (no proper prefix of it is one of its suffixes), the
left-to-right scan computes the same cut positions as this structural right
fold; the characterisation lemmas `splitSep_sepFree` and `splitSep_cut` below
pin the left-to-right behaviour exactly. -/
def splitSep : Str → List Str
  | [] => [[]]
  | c :: rest =>
    match splitSep rest with
    | [] => [[c]]
    | h :: tl =>
      if c = ':' ∧ h.take 2 = ['/', '/'] then [] :: (h.drop 2) :: tl
      else (c :: h) :: tl

/-- Go `strings.ReplaceAll(s, "-", "_")`. -/
def replaceDash (s : Str) : Str := s.map fun c => if c = '-' then '_' else c

/-- Go slice `s[len(pre) : len(s)-len(suf)]` (as used after a successful
`strings.HasPrefix`/`strings.HasSuffix` check). -/
def trimPreSuf (pre suf s : Str) : Str := (s.take (s.length - suf.length)).drop pre.length

/-- QoS class values of `k8s.io/api/core/v1.PodQOSClass` (a string type). -/
def PodQOSGuaranteed : Str := chars "Guaranteed"

/-- QoS class value `corev1.PodQOSBurstable`. -/
def PodQOSBurstable : Str := chars "Burstable"

/-- QoS class value `corev1.PodQOSBestEffort`. -/
def PodQOSBestEffort : Str := chars "BestEffort"

/-- Constant `Cgroupfs CgroupDriverType = "cgroupfs"`. -/
def Cgroupfs : Str := chars "cgroupfs"

/-- Constant `Systemd CgroupDriverType = "systemd"`. -/
def Systemd : Str := chars "systemd"

/-- Constant `KubeRootNameSystemd`. -/
def KubeRootNameSystemd : Str := chars "kubepods.slice/"

/-- Constant `KubeBurstableNameSystemd`. -/
def KubeBurstableNameSystemd : Str := chars "kubepods-burstable.slice/"

/-- Constant `KubeBesteffortNameSystemd`. -/
def KubeBesteffortNameSystemd : Str := chars "kubepods-besteffort.slice/"

/-- Constant `KubeRootNameCgroupfs`. -/
def KubeRootNameCgroupfs : Str := chars "kubepods/"

/-- Constant `KubeBurstableNameCgroupfs`. -/
def KubeBurstableNameCgroupfs : Str := chars "burstable/"

/-- Constant `KubeBesteffortNameCgroupfs`. -/
def KubeBesteffortNameCgroupfs : Str := chars "besteffort/"

/-- Constant `RuntimeTypeDocker = "docker"`. -/
def RuntimeTypeDocker : Str := chars "docker"

/-- Constant `RuntimeTypeContainerd = "containerd"`. -/
def RuntimeTypeContainerd : Str := chars "containerd"

/-- Constant `RuntimeTypeUnknown = "unknown"`. -/
def RuntimeTypeUnknown : Str := chars "unknown"

/-- Go method `Validate` on `CgroupDriverType`. -/
def Validate (c : Str) : Bool := c == Cgroupfs || c == Systemd

/-- The `(string, string, error)` triple returned by `ContainerDirFn`:
runtime kind, directory basename, and error (`none` meaning `nil`). -/
structure ContainerDirResult where
  runtime : Str
  dir : Str
  err : Option Str
deriving DecidableEq

/-- The `Formatter` struct (`ParentDir` plus the five operations). -/
structure Formatter where
  ParentDir : Str
  QOSDirFn : Str → Str
  PodDirFn : Str → Str → Str
  ContainerDirFn : Str → ContainerDirResult
  PodIDParser : Str → Except Str Str
  ContainerIDParser : Str → Except Str Str

/-- Closure `QOSDirFn` of `cgroupPathFormatterInSystemd` (switch on the QoS class). -/
def systemdQOSDirFn (qos : Str) : Str :=
  if qos = PodQOSBurstable then KubeBurstableNameSystemd
  else if qos = PodQOSBestEffort then KubeBesteffortNameSystemd
  else if qos = PodQOSGuaranteed then chars "/"
  else chars "/"

/-- Closure `PodDirFn` of `cgroupPathFormatterInSystemd`: replace hyphens by
underscores in the UID, then embed in the QoS-specific slice template. -/
def systemdPodDirFn (qos podUID : Str) : Str :=
  let id := replaceDash podUID
  if qos = PodQOSBurstable then chars "kubepods-burstable-pod" ++ (id ++ chars ".slice/")
  else if qos = PodQOSBestEffort then chars "kubepods-besteffort-pod" ++ (id ++ chars ".slice/")
  else if qos = PodQOSGuaranteed then chars "kubepods-pod" ++ (id ++ chars ".slice/")
  else chars "/"

/-- Closure `ContainerDirFn` of `cgroupPathFormatterInSystemd`: split the
container ID on `"://"`, fail when there are fewer than two parts, then switch
on the runtime kind in part 0 and build the scope name from part 1. -/
def systemdContainerDirFn (id : Str) : ContainerDirResult :=
  let hashID := splitSep id
  if hashID.length < 2 then
    ⟨RuntimeTypeUnknown, [], some (chars "parse container id " ++ (id ++ chars " failed"))⟩
  else if hashID.getD 0 [] = RuntimeTypeDocker then
    ⟨RuntimeTypeDocker, chars "docker-" ++ (hashID.getD 1 [] ++ chars ".scope"), none⟩
  else if hashID.getD 0 [] = RuntimeTypeContainerd then
    ⟨RuntimeTypeContainerd, chars "cri-containerd-" ++ (hashID.getD 1 [] ++ chars ".scope"), none⟩
  else
    ⟨RuntimeTypeUnknown, [], some (chars "unknown container protocol " ++ id)⟩

/-- Closure `PodIDParser` of `cgroupPathFormatterInSystemd`: try the three
slice templates in order (besteffort, burstable, guaranteed) and return the
substring between the matching literal pattern pair. -/
def systemdPodIDParser (basename : Str) : Except Str Str :=
  if (chars "kubepods-besteffort-pod").isPrefixOf basename
      && (chars ".slice").isSuffixOf basename then
    .ok (trimPreSuf (chars "kubepods-besteffort-pod") (chars ".slice") basename)
  else if (chars "kubepods-burstable-pod").isPrefixOf basename
      && (chars ".slice").isSuffixOf basename then
    .ok (trimPreSuf (chars "kubepods-burstable-pod") (chars ".slice") basename)
  else if (chars "kubepods-pod").isPrefixOf basename
      && (chars ".slice").isSuffixOf basename then
    .ok (trimPreSuf (chars "kubepods-pod") (chars ".slice") basename)
  else
    .error (chars "fail to parse pod id: " ++ basename)

/-- Closure `ContainerIDParser` of `cgroupPathFormatterInSystemd`: try the two
scope templates in order (docker, cri-containerd). -/
def systemdContainerIDParser (basename : Str) : Except Str Str :=
  if (chars "docker-").isPrefixOf basename && (chars ".scope").isSuffixOf basename then
    .ok (trimPreSuf (chars "docker-") (chars ".scope") basename)
  else if (chars "cri-containerd-").isPrefixOf basename
      && (chars ".scope").isSuffixOf basename then
    .ok (trimPreSuf (chars "cri-containerd-") (chars ".scope") basename)
  else
    .error (chars "fail to parse pod id: " ++ basename)

/-- The `cgroupPathFormatterInSystemd` formatter value. -/
def cgroupPathFormatterInSystemd : Formatter :=
  Formatter.mk KubeRootNameSystemd systemdQOSDirFn systemdPodDirFn systemdContainerDirFn
    systemdPodIDParser systemdContainerIDParser

/-- Closure `QOSDirFn` of `cgroupPathFormatterInCgroupfs`. -/
def cgroupfsQOSDirFn (qos : Str) : Str :=
  if qos = PodQOSBurstable then KubeBurstableNameCgroupfs
  else if qos = PodQOSBestEffort then KubeBesteffortNameCgroupfs
  else if qos = PodQOSGuaranteed then chars "/"
  else chars "/"

/-- Closure `PodDirFn` of `cgroupPathFormatterInCgroupfs`: `pod<UID>/`, QoS ignored. -/
def cgroupfsPodDirFn (_qos podUID : Str) : Str :=
  chars "pod" ++ (podUID ++ chars "/")

/-- Closure `ContainerDirFn` of `cgroupPathFormatterInCgroupfs`: split on
`"://"` as in the systemd variant, but use the hash portion verbatim. -/
def cgroupfsContainerDirFn (id : Str) : ContainerDirResult :=
  let hashID := splitSep id
  if hashID.length < 2 then
    ⟨RuntimeTypeUnknown, [], some (chars "parse container id " ++ (id ++ chars " failed"))⟩
  else if hashID.getD 0 [] = RuntimeTypeDocker then
    ⟨RuntimeTypeDocker, hashID.getD 1 [], none⟩
  else if hashID.getD 0 [] = RuntimeTypeContainerd then
    ⟨RuntimeTypeContainerd, hashID.getD 1 [], none⟩
  else
    ⟨RuntimeTypeUnknown, [], some (chars "unknown container protocol " ++ id)⟩

/-- Closure `PodIDParser` of `cgroupPathFormatterInCgroupfs`: strip the literal
`pod` from the front (`basename[len("pod"):]`). -/
def cgroupfsPodIDParser (basename : Str) : Except Str Str :=
  if (chars "pod").isPrefixOf basename then
    .ok (basename.drop (chars "pod").length)
  else
    .error (chars "fail to parse pod id: " ++ basename)

/-- Closure `ContainerIDParser` of `cgroupPathFormatterInCgroupfs`: identity. -/
def cgroupfsContainerIDParser (basename : Str) : Except Str Str :=
  .ok basename

/-- The `cgroupPathFormatterInCgroupfs` formatter value. -/
def cgroupPathFormatterInCgroupfs : Formatter :=
  Formatter.mk KubeRootNameCgroupfs cgroupfsQOSDirFn cgroupfsPodDirFn cgroupfsContainerDirFn
    cgroupfsPodIDParser cgroupfsContainerIDParser

/-- Go function `func GetCgroupPathFormatter(driver CgroupDriverType) Formatter`: switch on
the driver, defaulting (with only a log line) to the systemd formatter. -/
def GetCgroupPathFormatter (driver : Str) : Formatter :=
  if driver = Systemd then cgroupPathFormatterInSystemd
  else if driver = Cgroupfs then cgroupPathFormatterInCgroupfs
  else cgroupPathFormatterInSystemd

/-- Go function `func SetupCgroupPathFormatter(driver CgroupDriverType)`: assigns the
global `CgroupPathFormatter` slot for a recognised driver and only logs for
any other value.  The global variable is embedded by state passing: `current`
is the slot value before the call, the result is the slot value after it. -/
def SetupCgroupPathFormatter (driver : Str) (current : Formatter) : Formatter :=
  if driver = Systemd then cgroupPathFormatterInSystemd
  else if driver = Cgroupfs then cgroupPathFormatterInCgroupfs
  else current

/-- Go function `func DetectCgroupDriverFromKubelet(nodeName string) (CgroupDriverType, error)`:
the `wait.PollImmediate(10s, 60s, ...)` loop.  Each iteration's observable
outcome (the `GuessCgroupDriverFromKubeletPort` result, or any earlier
config/node error folded into `Except.error`) is an element of `polls`; the
loop accepts the first error-free driver that passes `Validate`, and an
exhausted budget surfaces as the poll timeout error. -/
def DetectCgroupDriverFromKubelet : List (Except Str Str) → Except Str Str
  | [] => .error (chars "timed out waiting for the condition")
  | r :: rest =>
    match r with
    | .ok driver =>
      if Validate driver then .ok driver else DetectCgroupDriverFromKubelet rest
    | .error _ => DetectCgroupDriverFromKubelet rest

/-- Go function `func DetectCgroupDriver() CgroupDriverType`: return the directory-name
guess when it validates, otherwise the kubelet detection result, otherwise the
fixed `Systemd` default.  `GuessCgroupDriverFromCgroupName` lives outside this
file and is embedded as the input `guess`; the kubelet poll outcomes are the
input `polls` as in `DetectCgroupDriverFromKubelet`. -/
def DetectCgroupDriver (guess : Str) (polls : List (Except Str Str)) : Str :=
  if Validate guess then guess
  else
    match DetectCgroupDriverFromKubelet polls with
    | .ok driver => driver
    | .error _ => Systemd

/-! ### Characterisation of `splitSep` (Go `strings.Split` on `"://"`) -/

theorem splitSep_cons_eq (c : Char) (rest h : Str) (tl : List Str)
    (hrw : splitSep rest = h :: tl) :
    splitSep (c :: rest)
      = if c = ':' ∧ h.take 2 = ['/', '/'] then [] :: (h.drop 2) :: tl
        else (c :: h) :: tl := by
  simp only [splitSep, hrw]

theorem splitSep_ne_nil (s : Str) : splitSep s ≠ [] := by
  induction s with
  | nil => simp [splitSep]
  | cons c rest ih =>
    cases hsr : splitSep rest with
    | nil => exact absurd hsr ih
    | cons h tl =>
      rw [splitSep_cons_eq c rest h tl hsr]
      split <;> simp

theorem take_two_split {l : Str} (h : l.take 2 = ['/', '/']) : ∃ t, l = '/' :: '/' :: t := by
  match l with
  | [] => simp at h
  | [a] => simp at h
  | a :: b :: t =>
    simp [List.take] at h
    exact ⟨t, by rw [h.1, h.2]⟩

theorem isInfix_cons_intro {l t : Str} (c : Char) (h : l <:+: t) : l <:+: c :: t := by
  obtain ⟨p, q, hp⟩ := h
  exact ⟨c :: p, q, by rw [← hp]; rfl⟩

theorem splitSep_sepFree : ∀ {s : Str}, ¬ chars "://" <:+: s → splitSep s = [s] := by
  intro s
  induction s with
  | nil => intro _; rfl
  | cons c rest ih =>
    intro h
    have hrest : ¬ chars "://" <:+: rest := fun hi => h (isInfix_cons_intro c hi)
    rw [splitSep_cons_eq c rest rest [] (ih hrest), if_neg]
    rintro ⟨hc, ht⟩
    obtain ⟨t, rfl⟩ := take_two_split ht
    subst hc
    exact h ⟨[], t, rfl⟩

theorem splitSep_sep_cons (b : Str) : splitSep (':' :: '/' :: '/' :: b) = [] :: splitSep b := by
  obtain ⟨hb, tb, hsb⟩ := List.exists_cons_of_ne_nil (splitSep_ne_nil b)
  have e1 : splitSep ('/' :: b) = ('/' :: hb) :: tb := by
    rw [splitSep_cons_eq '/' b hb tb hsb, if_neg]
    rintro ⟨h1, _⟩
    exact absurd h1 (by decide)
  have e2 : splitSep ('/' :: '/' :: b) = ('/' :: '/' :: hb) :: tb := by
    rw [splitSep_cons_eq '/' _ ('/' :: hb) tb e1, if_neg]
    rintro ⟨h1, _⟩
    exact absurd h1 (by decide)
  rw [splitSep_cons_eq ':' _ ('/' :: '/' :: hb) tb e2, if_pos ⟨rfl, rfl⟩]
  simp [hsb]

theorem splitSep_cut : ∀ (a b : Str), ¬ chars "://" <:+: a →
    splitSep (a ++ (chars "://" ++ b)) = a :: splitSep b := by
  intro a
  induction a with
  | nil => intro b _; exact splitSep_sep_cons b
  | cons c a1 ih =>
    intro b h
    have h1 : ¬ chars "://" <:+: a1 := fun hi => h (isInfix_cons_intro c hi)
    have hs := ih b h1
    have hc : (c :: a1) ++ (chars "://" ++ b) = c :: (a1 ++ (chars "://" ++ b)) := rfl
    rw [hc, splitSep_cons_eq c _ a1 (splitSep b) hs, if_neg]
    rintro ⟨hc2, ht⟩
    obtain ⟨t, rfl⟩ := take_two_split ht
    subst hc2
    exact h ⟨[], t, rfl⟩

/-! ### Prefix, suffix, and slicing helpers -/

theorem pre_take {p m : Str} (n : Nat) (h : p <+: m) : p.take n <+: m.take n := by
  obtain ⟨t, rfl⟩ := h
  rw [List.take_append_eq_append_take]
  exact List.prefix_append _ _

theorem not_isPrefixOf_concat {p l : Str} (rest : Str)
    (h : (p.take l.length).isPrefixOf l = false) : p.isPrefixOf (l ++ rest) = false := by
  apply Bool.eq_false_iff.mpr
  intro htrue
  have hpre : p <+: l ++ rest := List.isPrefixOf_iff_prefix.mp htrue
  have h2 : p.take l.length <+: (l ++ rest).take l.length := pre_take _ hpre
  rw [List.take_left] at h2
  exact absurd (List.isPrefixOf_iff_prefix.mpr h2) (Bool.eq_false_iff.mp h)

theorem isPrefixOf_self_append (p r : Str) : p.isPrefixOf (p ++ r) = true :=
  List.isPrefixOf_iff_prefix.mpr (List.prefix_append p r)

theorem isSuffixOf_tail_append (s a b : Str) : s.isSuffixOf (a ++ (b ++ s)) = true :=
  List.isSuffixOf_iff_suffix.mpr ⟨a ++ b, by simp⟩

theorem trimPreSuf_append (pre mid suf : Str) :
    trimPreSuf pre suf (pre ++ (mid ++ suf)) = mid := by
  have hassoc : pre ++ (mid ++ suf) = (pre ++ mid) ++ suf := (List.append_assoc pre mid suf).symm
  rw [trimPreSuf, hassoc]
  have hlen : ((pre ++ mid) ++ suf).length - suf.length = (pre ++ mid).length := by
    simp only [List.length_append]
    omega
  rw [hlen, List.take_left, List.drop_left]

/-! ### Evaluation lemmas for the formatter operations -/

theorem systemdContainerDirFn_eval (id p1 p2 : Str) (t : List Str)
    (hsplit : splitSep id = p1 :: p2 :: t) :
    systemdContainerDirFn id =
      if p1 = RuntimeTypeDocker then
        ⟨RuntimeTypeDocker, chars "docker-" ++ (p2 ++ chars ".scope"), none⟩
      else if p1 = RuntimeTypeContainerd then
        ⟨RuntimeTypeContainerd, chars "cri-containerd-" ++ (p2 ++ chars ".scope"), none⟩
      else ⟨RuntimeTypeUnknown, [], some (chars "unknown container protocol " ++ id)⟩ := by
  have hlen : ¬ ((p1 :: p2 :: t).length < 2) := by
    simp only [List.length_cons]
    omega
  simp only [systemdContainerDirFn, hsplit]
  rw [if_neg hlen]
  simp only [List.getD_cons_zero, List.getD_cons_succ]

theorem cgroupfsContainerDirFn_eval (id p1 p2 : Str) (t : List Str)
    (hsplit : splitSep id = p1 :: p2 :: t) :
    cgroupfsContainerDirFn id =
      if p1 = RuntimeTypeDocker then ⟨RuntimeTypeDocker, p2, none⟩
      else if p1 = RuntimeTypeContainerd then ⟨RuntimeTypeContainerd, p2, none⟩
      else ⟨RuntimeTypeUnknown, [], some (chars "unknown container protocol " ++ id)⟩ := by
  have hlen : ¬ ((p1 :: p2 :: t).length < 2) := by
    simp only [List.length_cons]
    omega
  simp only [cgroupfsContainerDirFn, hsplit]
  rw [if_neg hlen]
  simp only [List.getD_cons_zero, List.getD_cons_succ]

theorem systemdContainerDirFn_noSep (id : Str) (h : ¬ chars "://" <:+: id) :
    systemdContainerDirFn id
      = ⟨RuntimeTypeUnknown, [], some (chars "parse container id " ++ (id ++ chars " failed"))⟩ := by
  simp only [systemdContainerDirFn, splitSep_sepFree h]
  rw [if_pos (by simp)]

theorem cgroupfsContainerDirFn_noSep (id : Str) (h : ¬ chars "://" <:+: id) :
    cgroupfsContainerDirFn id
      = ⟨RuntimeTypeUnknown, [], some (chars "parse container id " ++ (id ++ chars " failed"))⟩ := by
  simp only [cgroupfsContainerDirFn, splitSep_sepFree h]
  rw [if_pos (by simp)]

theorem systemdPodIDParser_besteffort (id : Str) :
    systemdPodIDParser (chars "kubepods-besteffort-pod" ++ (id ++ chars ".slice"))
      = Except.ok id := by
  rw [systemdPodIDParser, isPrefixOf_self_append, isSuffixOf_tail_append]
  simp [trimPreSuf_append]

theorem systemdPodIDParser_burstable (id : Str) :
    systemdPodIDParser (chars "kubepods-burstable-pod" ++ (id ++ chars ".slice"))
      = Except.ok id := by
  have h1 : (chars "kubepods-besteffort-pod").isPrefixOf
      (chars "kubepods-burstable-pod" ++ (id ++ chars ".slice")) = false :=
    not_isPrefixOf_concat _ (by decide)
  rw [systemdPodIDParser, h1, isPrefixOf_self_append, isSuffixOf_tail_append]
  simp [trimPreSuf_append]

theorem systemdPodIDParser_guaranteed (id : Str) :
    systemdPodIDParser (chars "kubepods-pod" ++ (id ++ chars ".slice"))
      = Except.ok id := by
  have h1 : (chars "kubepods-besteffort-pod").isPrefixOf
      (chars "kubepods-pod" ++ (id ++ chars ".slice")) = false :=
    not_isPrefixOf_concat _ (by decide)
  have h2 : (chars "kubepods-burstable-pod").isPrefixOf
      (chars "kubepods-pod" ++ (id ++ chars ".slice")) = false :=
    not_isPrefixOf_concat _ (by decide)
  rw [systemdPodIDParser, h1, h2, isPrefixOf_self_append, isSuffixOf_tail_append]
  simp [trimPreSuf_append]

theorem systemdContainerIDParser_docker (x : Str) :
    systemdContainerIDParser (chars "docker-" ++ (x ++ chars ".scope")) = Except.ok x := by
  rw [systemdContainerIDParser, isPrefixOf_self_append, isSuffixOf_tail_append]
  simp [trimPreSuf_append]

theorem systemdContainerIDParser_containerd (x : Str) :
    systemdContainerIDParser (chars "cri-containerd-" ++ (x ++ chars ".scope"))
      = Except.ok x := by
  have h1 : (chars "docker-").isPrefixOf
      (chars "cri-containerd-" ++ (x ++ chars ".scope")) = false :=
    not_isPrefixOf_concat _ (by decide)
  rw [systemdContainerIDParser, h1, isPrefixOf_self_append, isSuffixOf_tail_append]
  simp [trimPreSuf_append]

theorem cgroupfsPodIDParser_app (uid : Str) :
    cgroupfsPodIDParser (chars "pod" ++ uid) = Except.ok uid := by
  rw [cgroupfsPodIDParser, isPrefixOf_self_append]
  simp [List.drop_left]

theorem dropLast_slice (p mid : Str) :
    (p ++ (mid ++ chars ".slice/")).dropLast = p ++ (mid ++ chars ".slice") := by
  have hsl : chars ".slice/" = chars ".slice" ++ ['/'] := rfl
  rw [hsl, show p ++ (mid ++ (chars ".slice" ++ ['/'])) = (p ++ (mid ++ chars ".slice")) ++ ['/']
    by simp]
  exact List.dropLast_concat

theorem dropLast_podSlash (uid : Str) :
    (chars "pod" ++ (uid ++ chars "/")).dropLast = chars "pod" ++ uid := by
  have hsl : chars "/" = ['/'] := rfl
  rw [hsl, show chars "pod" ++ (uid ++ ['/']) = (chars "pod" ++ uid) ++ ['/'] by simp]
  exact List.dropLast_concat

theorem systemdPodDirFn_burstable (uid : Str) :
    systemdPodDirFn PodQOSBurstable uid
      = chars "kubepods-burstable-pod" ++ (replaceDash uid ++ chars ".slice/") := by
  simp [systemdPodDirFn]

theorem systemdPodDirFn_besteffort (uid : Str) :
    systemdPodDirFn PodQOSBestEffort uid
      = chars "kubepods-besteffort-pod" ++ (replaceDash uid ++ chars ".slice/") := by
  have h1 : PodQOSBestEffort ≠ PodQOSBurstable := by decide
  simp [systemdPodDirFn, h1]

theorem systemdPodDirFn_guaranteed (uid : Str) :
    systemdPodDirFn PodQOSGuaranteed uid
      = chars "kubepods-pod" ++ (replaceDash uid ++ chars ".slice/") := by
  have h1 : PodQOSGuaranteed ≠ PodQOSBurstable := by decide
  have h2 : PodQOSGuaranteed ≠ PodQOSBestEffort := by decide
  simp [systemdPodDirFn, h1, h2]

theorem formatters_ne : cgroupPathFormatterInSystemd ≠ cgroupPathFormatterInCgroupfs := by
  intro h
  have h2 := congrArg Formatter.ParentDir h
  exact absurd h2 (by decide)

/-! ### Claims -/

/-- C1, counterexample: the round trip as literally claimed fails, because
`PodDirFn` appends a trailing `/` which the parsers never strip.  At
`qos = Burstable`, `uid = "abc-1"` the systemd composition returns a parse
error rather than `"abc_1"`, and the cgroupfs composition returns `"abc-1/"`,
not `"abc-1"`. -/
theorem podID_roundTrip_counterexample :
    cgroupPathFormatterInSystemd.PodIDParser
        (cgroupPathFormatterInSystemd.PodDirFn PodQOSBurstable (chars "abc-1"))
      = Except.error (chars "fail to parse pod id: kubepods-burstable-podabc_1.slice/")
  ∧ cgroupPathFormatterInCgroupfs.PodIDParser
        (cgroupPathFormatterInCgroupfs.PodDirFn PodQOSBurstable (chars "abc-1"))
      = Except.ok (chars "abc-1/")
  ∧ chars "abc-1/" ≠ chars "abc-1" := by
  decide

/-- C1 (amended): for every QoS class in the set Guaranteed/Burstable/BestEffort
and every pod UID, parsing the pod directory name with its trailing `/` removed
recovers the identifier: the cgroupfs parser returns the UID unchanged and the
systemd parser returns the UID with every hyphen replaced by an underscore,
in both cases without error. -/
theorem podID_roundTrip_dropLast (qos uid : Str)
    (h : qos = PodQOSGuaranteed ∨ qos = PodQOSBurstable ∨ qos = PodQOSBestEffort) :
    cgroupPathFormatterInSystemd.PodIDParser
        ((cgroupPathFormatterInSystemd.PodDirFn qos uid).dropLast)
      = Except.ok (replaceDash uid)
  ∧ cgroupPathFormatterInCgroupfs.PodIDParser
        ((cgroupPathFormatterInCgroupfs.PodDirFn qos uid).dropLast)
      = Except.ok uid := by
  constructor
  · show systemdPodIDParser ((systemdPodDirFn qos uid).dropLast) = _
    rcases h with rfl | rfl | rfl
    · rw [systemdPodDirFn_guaranteed, dropLast_slice, systemdPodIDParser_guaranteed]
    · rw [systemdPodDirFn_burstable, dropLast_slice, systemdPodIDParser_burstable]
    · rw [systemdPodDirFn_besteffort, dropLast_slice, systemdPodIDParser_besteffort]
  · show cgroupfsPodIDParser ((cgroupfsPodDirFn qos uid).dropLast) = _
    rw [cgroupfsPodDirFn, dropLast_podSlash, cgroupfsPodIDParser_app]

/-- C1 witness: the amended round trip at `qos = Burstable`, `uid = "abc-1"`. -/
theorem podID_roundTrip_dropLast_witness :
    cgroupPathFormatterInSystemd.PodIDParser
        ((cgroupPathFormatterInSystemd.PodDirFn PodQOSBurstable (chars "abc-1")).dropLast)
      = Except.ok (replaceDash (chars "abc-1"))
  ∧ cgroupPathFormatterInCgroupfs.PodIDParser
        ((cgroupPathFormatterInCgroupfs.PodDirFn PodQOSBurstable (chars "abc-1")).dropLast)
      = Except.ok (chars "abc-1") :=
  podID_roundTrip_dropLast PodQOSBurstable (chars "abc-1") (Or.inr (Or.inl rfl))

/-- C4: `QOSDirFn` returns `"/"` for Guaranteed under both conventions,
`"kubepods-burstable.slice/"` (systemd) and `"burstable/"` (cgroupfs) for
Burstable, and `"kubepods-besteffort.slice/"` (systemd) and `"besteffort/"`
(cgroupfs) for BestEffort. -/
theorem qosDirFn_values :
    cgroupPathFormatterInSystemd.QOSDirFn PodQOSGuaranteed = chars "/"
  ∧ cgroupPathFormatterInCgroupfs.QOSDirFn PodQOSGuaranteed = chars "/"
  ∧ cgroupPathFormatterInSystemd.QOSDirFn PodQOSBurstable = chars "kubepods-burstable.slice/"
  ∧ cgroupPathFormatterInCgroupfs.QOSDirFn PodQOSBurstable = chars "burstable/"
  ∧ cgroupPathFormatterInSystemd.QOSDirFn PodQOSBestEffort = chars "kubepods-besteffort.slice/"
  ∧ cgroupPathFormatterInCgroupfs.QOSDirFn PodQOSBestEffort = chars "besteffort/" := by
  decide

/-- C5: the systemd `PodDirFn` first replaces every hyphen in the UID by an
underscore and then embeds the result in the QoS-specific slice template;
in particular `PodDirFn Burstable "abc-123-def"` is
`"kubepods-burstable-podabc_123_def.slice/"`. -/
theorem systemd_podDirFn_spec (uid : Str) :
    cgroupPathFormatterInSystemd.PodDirFn PodQOSBestEffort uid
      = chars "kubepods-besteffort-pod" ++ (replaceDash uid ++ chars ".slice/")
  ∧ cgroupPathFormatterInSystemd.PodDirFn PodQOSBurstable uid
      = chars "kubepods-burstable-pod" ++ (replaceDash uid ++ chars ".slice/")
  ∧ cgroupPathFormatterInSystemd.PodDirFn PodQOSGuaranteed uid
      = chars "kubepods-pod" ++ (replaceDash uid ++ chars ".slice/")
  ∧ cgroupPathFormatterInSystemd.PodDirFn PodQOSBurstable (chars "abc-123-def")
      = chars "kubepods-burstable-podabc_123_def.slice/" :=
  ⟨systemdPodDirFn_besteffort uid, systemdPodDirFn_burstable uid,
    systemdPodDirFn_guaranteed uid, by decide⟩

/-- C2: for container IDs `"docker://X"` or `"containerd://X"` with `X` free of
`/` and of `"://"`, `ContainerDirFn` succeeds with the documented directory
name under each convention (`docker-X.scope` / `cri-containerd-X.scope` for
systemd, `X` itself for cgroupfs) and `ContainerIDParser` applied to that name
recovers `X` without error. -/
theorem containerID_roundTrip (X : Str) (h1 : ('/' : Char) ∉ X)
    (h2 : ¬ chars "://" <:+: X) :
    cgroupPathFormatterInSystemd.ContainerDirFn (chars "docker://" ++ X)
      = ⟨RuntimeTypeDocker, chars "docker-" ++ (X ++ chars ".scope"), none⟩
  ∧ cgroupPathFormatterInSystemd.ContainerIDParser (chars "docker-" ++ (X ++ chars ".scope"))
      = Except.ok X
  ∧ cgroupPathFormatterInSystemd.ContainerDirFn (chars "containerd://" ++ X)
      = ⟨RuntimeTypeContainerd, chars "cri-containerd-" ++ (X ++ chars ".scope"), none⟩
  ∧ cgroupPathFormatterInSystemd.ContainerIDParser
        (chars "cri-containerd-" ++ (X ++ chars ".scope"))
      = Except.ok X
  ∧ cgroupPathFormatterInCgroupfs.ContainerDirFn (chars "docker://" ++ X)
      = ⟨RuntimeTypeDocker, X, none⟩
  ∧ cgroupPathFormatterInCgroupfs.ContainerDirFn (chars "containerd://" ++ X)
      = ⟨RuntimeTypeContainerd, X, none⟩
  ∧ cgroupPathFormatterInCgroupfs.ContainerIDParser X = Except.ok X := by
  have hsd : splitSep (chars "docker://" ++ X) = chars "docker" :: X :: [] := by
    rw [show chars "docker://" ++ X = chars "docker" ++ (chars "://" ++ X) from rfl,
      splitSep_cut _ _ (by decide), splitSep_sepFree h2]
  have hsc : splitSep (chars "containerd://" ++ X) = chars "containerd" :: X :: [] := by
    rw [show chars "containerd://" ++ X = chars "containerd" ++ (chars "://" ++ X) from rfl,
      splitSep_cut _ _ (by decide), splitSep_sepFree h2]
  refine ⟨?_, systemdContainerIDParser_docker X, ?_, systemdContainerIDParser_containerd X,
    ?_, ?_, rfl⟩
  · show systemdContainerDirFn _ = _
    rw [systemdContainerDirFn_eval _ _ _ _ hsd,
      if_pos (show chars "docker" = RuntimeTypeDocker from rfl)]
  · show systemdContainerDirFn _ = _
    rw [systemdContainerDirFn_eval _ _ _ _ hsc, if_neg (by decide),
      if_pos (show chars "containerd" = RuntimeTypeContainerd from rfl)]
  · show cgroupfsContainerDirFn _ = _
    rw [cgroupfsContainerDirFn_eval _ _ _ _ hsd,
      if_pos (show chars "docker" = RuntimeTypeDocker from rfl)]
  · show cgroupfsContainerDirFn _ = _
    rw [cgroupfsContainerDirFn_eval _ _ _ _ hsc, if_neg (by decide),
      if_pos (show chars "containerd" = RuntimeTypeContainerd from rfl)]

/-- C2 witness: the docker round trip at `X = "abc"` under systemd. -/
theorem containerID_roundTrip_witness :
    cgroupPathFormatterInSystemd.ContainerDirFn (chars "docker://" ++ chars "abc")
      = ⟨RuntimeTypeDocker, chars "docker-" ++ (chars "abc" ++ chars ".scope"), none⟩
  ∧ cgroupPathFormatterInSystemd.ContainerIDParser
        (chars "docker-" ++ (chars "abc" ++ chars ".scope"))
      = Except.ok (chars "abc") :=
  ⟨(containerID_roundTrip (chars "abc") (by decide) (by decide)).1,
   (containerID_roundTrip (chars "abc") (by decide) (by decide)).2.1⟩

/-- C3: under both conventions `ContainerDirFn` fails, with runtime kind
`"unknown"` and an empty directory name, on every ID without the `"://"`
separator, and on every ID whose text before the first `"://"` (the sep-free
prefix `p` of `p ++ "://" ++ t`) is neither `"docker"` nor `"containerd"`. -/
theorem containerDirFn_error_cases (id p t : Str) :
    ((¬ chars "://" <:+: id) →
      cgroupPathFormatterInSystemd.ContainerDirFn id
          = ⟨RuntimeTypeUnknown, [],
              some (chars "parse container id " ++ (id ++ chars " failed"))⟩
      ∧ cgroupPathFormatterInCgroupfs.ContainerDirFn id
          = ⟨RuntimeTypeUnknown, [],
              some (chars "parse container id " ++ (id ++ chars " failed"))⟩)
  ∧ ((¬ chars "://" <:+: p) → p ≠ RuntimeTypeDocker → p ≠ RuntimeTypeContainerd →
      cgroupPathFormatterInSystemd.ContainerDirFn (p ++ (chars "://" ++ t))
          = ⟨RuntimeTypeUnknown, [],
              some (chars "unknown container protocol " ++ (p ++ (chars "://" ++ t)))⟩
      ∧ cgroupPathFormatterInCgroupfs.ContainerDirFn (p ++ (chars "://" ++ t))
          = ⟨RuntimeTypeUnknown, [],
              some (chars "unknown container protocol " ++ (p ++ (chars "://" ++ t)))⟩) := by
  constructor
  · intro h
    exact ⟨systemdContainerDirFn_noSep id h, cgroupfsContainerDirFn_noSep id h⟩
  · intro hp hd hc
    obtain ⟨h2, t2, hst⟩ := List.exists_cons_of_ne_nil (splitSep_ne_nil t)
    have hs : splitSep (p ++ (chars "://" ++ t)) = p :: h2 :: t2 := by
      rw [splitSep_cut _ _ hp, hst]
    constructor
    · show systemdContainerDirFn _ = _
      rw [systemdContainerDirFn_eval _ _ _ _ hs, if_neg hd, if_neg hc]
    · show cgroupfsContainerDirFn _ = _
      rw [cgroupfsContainerDirFn_eval _ _ _ _ hs, if_neg hd, if_neg hc]

/-- C3 witness: a separator-free ID and an unknown runtime prefix. -/
theorem containerDirFn_error_cases_witness :
    cgroupPathFormatterInSystemd.ContainerDirFn (chars "abc")
      = ⟨RuntimeTypeUnknown, [],
          some (chars "parse container id " ++ (chars "abc" ++ chars " failed"))⟩
  ∧ cgroupPathFormatterInCgroupfs.ContainerDirFn (chars "crio" ++ (chars "://" ++ chars "x"))
      = ⟨RuntimeTypeUnknown, [],
          some (chars "unknown container protocol "
            ++ (chars "crio" ++ (chars "://" ++ chars "x")))⟩ :=
  ⟨((containerDirFn_error_cases (chars "abc") (chars "crio") (chars "x")).1 (by decide)).1,
   ((containerDirFn_error_cases (chars "abc") (chars "crio") (chars "x")).2
      (by decide) (by decide) (by decide)).2⟩

/-- C9: on IDs with several `"://"` separators whose first segment is a known
runtime (`"docker://a://b"` with `a` free of `"://"`), `ContainerDirFn`
succeeds under both conventions and uses only the text between the first and
second separator as the hash; everything after the second separator is
silently dropped. -/
theorem containerDirFn_multiSep (a b : Str) (ha : ¬ chars "://" <:+: a) :
    cgroupPathFormatterInSystemd.ContainerDirFn
        (chars "docker://" ++ (a ++ (chars "://" ++ b)))
      = ⟨RuntimeTypeDocker, chars "docker-" ++ (a ++ chars ".scope"), none⟩
  ∧ cgroupPathFormatterInSystemd.ContainerDirFn
        (chars "containerd://" ++ (a ++ (chars "://" ++ b)))
      = ⟨RuntimeTypeContainerd, chars "cri-containerd-" ++ (a ++ chars ".scope"), none⟩
  ∧ cgroupPathFormatterInCgroupfs.ContainerDirFn
        (chars "docker://" ++ (a ++ (chars "://" ++ b)))
      = ⟨RuntimeTypeDocker, a, none⟩
  ∧ cgroupPathFormatterInCgroupfs.ContainerDirFn
        (chars "containerd://" ++ (a ++ (chars "://" ++ b)))
      = ⟨RuntimeTypeContainerd, a, none⟩ := by
  have hsd : splitSep (chars "docker://" ++ (a ++ (chars "://" ++ b)))
      = chars "docker" :: a :: splitSep b := by
    rw [show chars "docker://" ++ (a ++ (chars "://" ++ b))
        = chars "docker" ++ (chars "://" ++ (a ++ (chars "://" ++ b))) from rfl,
      splitSep_cut _ _ (by decide), splitSep_cut _ _ ha]
  have hsc : splitSep (chars "containerd://" ++ (a ++ (chars "://" ++ b)))
      = chars "containerd" :: a :: splitSep b := by
    rw [show chars "containerd://" ++ (a ++ (chars "://" ++ b))
        = chars "containerd" ++ (chars "://" ++ (a ++ (chars "://" ++ b))) from rfl,
      splitSep_cut _ _ (by decide), splitSep_cut _ _ ha]
  refine ⟨?_, ?_, ?_, ?_⟩
  · show systemdContainerDirFn _ = _
    rw [systemdContainerDirFn_eval _ _ _ _ hsd,
      if_pos (show chars "docker" = RuntimeTypeDocker from rfl)]
  · show systemdContainerDirFn _ = _
    rw [systemdContainerDirFn_eval _ _ _ _ hsc, if_neg (by decide),
      if_pos (show chars "containerd" = RuntimeTypeContainerd from rfl)]
  · show cgroupfsContainerDirFn _ = _
    rw [cgroupfsContainerDirFn_eval _ _ _ _ hsd,
      if_pos (show chars "docker" = RuntimeTypeDocker from rfl)]
  · show cgroupfsContainerDirFn _ = _
    rw [cgroupfsContainerDirFn_eval _ _ _ _ hsc, if_neg (by decide),
      if_pos (show chars "containerd" = RuntimeTypeContainerd from rfl)]

/-- C9 witness: `"docker://a://b"` under systemd. -/
theorem containerDirFn_multiSep_witness :
    cgroupPathFormatterInSystemd.ContainerDirFn
        (chars "docker://" ++ (chars "a" ++ (chars "://" ++ chars "b")))
      = ⟨RuntimeTypeDocker, chars "docker-" ++ (chars "a" ++ chars ".scope"), none⟩ :=
  (containerDirFn_multiSep (chars "a") (chars "b") (by decide)).1

/-- C6: `GetCgroupPathFormatter` is total and returns the cgroupfs formatter
exactly for the input `"cgroupfs"`, the systemd formatter for `"systemd"`,
and the systemd formatter for every other string. -/
theorem getCgroupPathFormatter_spec (d : Str) :
    (GetCgroupPathFormatter d = cgroupPathFormatterInCgroupfs ↔ d = Cgroupfs)
  ∧ (GetCgroupPathFormatter d = cgroupPathFormatterInSystemd ↔ d ≠ Cgroupfs)
  ∧ GetCgroupPathFormatter Systemd = cgroupPathFormatterInSystemd := by
  have hsys : GetCgroupPathFormatter Systemd = cgroupPathFormatterInSystemd := by
    rw [GetCgroupPathFormatter, if_pos rfl]
  by_cases hC : d = Cgroupfs
  · subst hC
    have hval : GetCgroupPathFormatter Cgroupfs = cgroupPathFormatterInCgroupfs := by
      rw [GetCgroupPathFormatter, if_neg (by decide), if_pos rfl]
    rw [hval]
    refine ⟨⟨fun _ => rfl, fun _ => rfl⟩, ⟨fun h => absurd h.symm formatters_ne,
      fun h => absurd rfl h⟩, hsys⟩
  · have hval : GetCgroupPathFormatter d = cgroupPathFormatterInSystemd := by
      by_cases hS : d = Systemd
      · rw [GetCgroupPathFormatter, if_pos hS]
      · rw [GetCgroupPathFormatter, if_neg hS, if_neg hC]
    rw [hval]
    exact ⟨⟨fun h => absurd h formatters_ne, fun h => absurd h hC⟩,
      ⟨fun _ => hC, fun _ => rfl⟩, hsys⟩

/-- C6 witness: an unrecognised driver string falls back to the systemd formatter. -/
theorem getCgroupPathFormatter_witness :
    GetCgroupPathFormatter (chars "bogus") = cgroupPathFormatterInSystemd :=
  (getCgroupPathFormatter_spec (chars "bogus")).2.1.mpr (by decide)

/-- C7: `SetupCgroupPathFormatter` rebinds the active-formatter slot to the
systemd formatter for `"systemd"`, to the cgroupfs formatter for
`"cgroupfs"`, and leaves the slot unchanged for any other driver value. -/
theorem setupCgroupPathFormatter_spec (driver : Str) (current : Formatter) :
    (driver = Systemd →
      SetupCgroupPathFormatter driver current = cgroupPathFormatterInSystemd)
  ∧ (driver = Cgroupfs →
      SetupCgroupPathFormatter driver current = cgroupPathFormatterInCgroupfs)
  ∧ (driver ≠ Systemd → driver ≠ Cgroupfs →
      SetupCgroupPathFormatter driver current = current) := by
  refine ⟨?_, ?_, ?_⟩
  · intro h
    subst h
    rw [SetupCgroupPathFormatter, if_pos rfl]
  · intro h
    subst h
    rw [SetupCgroupPathFormatter, if_neg (by decide), if_pos rfl]
  · intro hs hc
    rw [SetupCgroupPathFormatter, if_neg hs, if_neg hc]

/-- C7 witness: an invalid rebind leaves the cgroupfs formatter in place. -/
theorem setupCgroupPathFormatter_witness :
    SetupCgroupPathFormatter (chars "kubepods") cgroupPathFormatterInCgroupfs
      = cgroupPathFormatterInCgroupfs :=
  (setupCgroupPathFormatter_spec (chars "kubepods") cgroupPathFormatterInCgroupfs).2.2
    (by decide) (by decide)

theorem kubelet_ok_valid : ∀ (polls : List (Except Str Str)) (d : Str),
    DetectCgroupDriverFromKubelet polls = Except.ok d → Validate d = true := by
  intro polls
  induction polls with
  | nil =>
    intro d h
    simp [DetectCgroupDriverFromKubelet] at h
  | cons r rest ih =>
    intro d h
    cases r with
    | ok drv =>
      by_cases hv : Validate drv = true
      · simp only [DetectCgroupDriverFromKubelet] at h
        rw [if_pos hv] at h
        rw [← Except.ok.inj h]
        exact hv
      · simp only [DetectCgroupDriverFromKubelet] at h
        rw [if_neg hv] at h
        exact ih d h
    | error e =>
      simp only [DetectCgroupDriverFromKubelet] at h
      exact ih d h

/-- C8: `DetectCgroupDriver` never fails outward and always yields a value
satisfying `Validate`: a valid directory-name guess is returned as is (the
kubelet is not consulted), otherwise an error-free kubelet detection result is
returned, and a kubelet detection error yields the fixed `"systemd"` default. -/
theorem detectCgroupDriver_spec (guess : Str) (polls : List (Except Str Str)) :
    Validate (DetectCgroupDriver guess polls) = true
  ∧ (Validate guess = true → DetectCgroupDriver guess polls = guess)
  ∧ (Validate guess = false → ∀ d, DetectCgroupDriverFromKubelet polls = Except.ok d →
      DetectCgroupDriver guess polls = d)
  ∧ (Validate guess = false → ∀ e, DetectCgroupDriverFromKubelet polls = Except.error e →
      DetectCgroupDriver guess polls = Systemd) := by
  by_cases hg : Validate guess = true
  · have hval : DetectCgroupDriver guess polls = guess := by
      rw [DetectCgroupDriver, if_pos hg]
    refine ⟨by rw [hval]; exact hg, fun _ => hval, fun hf => ?_, fun hf => ?_⟩
    · rw [hf] at hg
      exact absurd hg (by decide)
    · rw [hf] at hg
      exact absurd hg (by decide)
  · cases hk : DetectCgroupDriverFromKubelet polls with
    | ok d0 =>
      have hval : DetectCgroupDriver guess polls = d0 := by
        rw [DetectCgroupDriver, if_neg hg, hk]
      refine ⟨by rw [hval]; exact kubelet_ok_valid polls d0 hk,
        fun ht => absurd ht hg, ?_, ?_⟩
      · intro _ d hd
        rw [hval]
        exact Except.ok.inj hd
      · intro _ e he
        exact Except.noConfusion he
    | error e0 =>
      have hval : DetectCgroupDriver guess polls = Systemd := by
        rw [DetectCgroupDriver, if_neg hg, hk]
      refine ⟨by rw [hval]; decide, fun ht => absurd ht hg, ?_, fun _ e _ => hval⟩
      · intro _ d hd
        exact Except.noConfusion hd

/-- C8 witness: an invalid guess together with an exhausted kubelet poll
budget yields the systemd default, which validates. -/
theorem detectCgroupDriver_witness :
    Validate (DetectCgroupDriver (chars "invalid") []) = true
  ∧ DetectCgroupDriver (chars "invalid") [] = Systemd :=
  ⟨(detectCgroupDriver_spec (chars "invalid") []).1,
   (detectCgroupDriver_spec (chars "invalid") []).2.2.2 (by decide)
     (chars "timed out waiting for the condition") rfl⟩

/-- C10: for a QoS class outside Guaranteed/Burstable/BestEffort, `QOSDirFn`
returns `"/"` under both conventions and the systemd `PodDirFn` returns `"/"`,
while the cgroupfs `PodDirFn` ignores the QoS class entirely and returns
`pod<UID>/` for every QoS class and UID. -/
theorem unknown_qos_spec (qos uid : Str)
    (h1 : qos ≠ PodQOSGuaranteed) (h2 : qos ≠ PodQOSBurstable) (h3 : qos ≠ PodQOSBestEffort) :
    cgroupPathFormatterInSystemd.QOSDirFn qos = chars "/"
  ∧ cgroupPathFormatterInCgroupfs.QOSDirFn qos = chars "/"
  ∧ cgroupPathFormatterInSystemd.PodDirFn qos uid = chars "/"
  ∧ (∀ anyQos uid2 : Str, cgroupPathFormatterInCgroupfs.PodDirFn anyQos uid2
      = chars "pod" ++ (uid2 ++ chars "/")) := by
  refine ⟨?_, ?_, ?_, fun q u => rfl⟩
  · show systemdQOSDirFn qos = _
    rw [systemdQOSDirFn, if_neg h2, if_neg h3, if_neg h1]
  · show cgroupfsQOSDirFn qos = _
    rw [cgroupfsQOSDirFn, if_neg h2, if_neg h3, if_neg h1]
  · show systemdPodDirFn qos uid = _
    simp only [systemdPodDirFn]
    rw [if_neg h2, if_neg h3, if_neg h1]

/-- C10 witness: the out-of-enumeration QoS value `"Node"`. -/
theorem unknown_qos_witness :
    cgroupPathFormatterInSystemd.QOSDirFn (chars "Node") = chars "/"
  ∧ cgroupPathFormatterInSystemd.PodDirFn (chars "Node") (chars "u1") = chars "/" :=
  ⟨(unknown_qos_spec (chars "Node") (chars "u1") (by decide) (by decide) (by decide)).1,
   (unknown_qos_spec (chars "Node") (chars "u1") (by decide) (by decide) (by decide)).2.2.1⟩

end CgroupDriver
